import Mathlib

/-!
Shallow embedding of the QuickNotes authentication subsystem.

The modeled code:
* `supabase-setup.sql` — the server-side functions `record_failed_attempt`,
  `validate_password_with_lockout`, `cleanup_expired_sessions`,
  `is_valid_session_token`, and the singleton tables `universal_lockout`,
  `app_password`, `active_session`.
* `src/hooks/useLockout.js` — `checkLockoutStatus`, `recordFailedAttempt`,
  `resetLockout`.
* `src/hooks/usePassword.js` — `savePassword`, `validatePassword` (the revision
  that delegates to the `validate_password_with_lockout` RPC).
* `src/hooks/useAuth.js` — `checkAuthStatus`, `createSession`,
  `invalidateSession`.
* `src/components/PicturePasswordAuth.jsx` — `handleImageClick`, whose login
  branch composes the above into the attempt-login flow, and whose setup
  branch composes them into the set-credential flow.

Time is modeled as a natural number of milliseconds on a single clock shared
by the JS `Date.now()` and the SQL `NOW()`. Random token generation
(`generateSessionToken`) is externalized: the token is a parameter of the
operations that mint one. Storage-layer failures (network errors, the
`StorageUnavailable` condition) are outside the model: every modeled call is
the happy path of the corresponding query.
-/

namespace QuickNotes

/-- Milliseconds since the epoch, shared by JS `Date.now()` and SQL `NOW()`. -/
abbrev Time := Nat

/-- `LOCKOUT_DURATION_MS` in useLockout.js; `INTERVAL '1 hour'` in the SQL. -/
def LOCKOUT_DURATION_MS : Nat := 60 * 60 * 1000

/-- `SESSION_DURATION_MS` in useAuth.js (24 hours). -/
def SESSION_DURATION_MS : Nat := 24 * 60 * 60 * 1000

/-- `MAX_ATTEMPTS` in useLockout.js and PicturePasswordAuth.jsx; the literal 3
in `record_failed_attempt`. -/
def MAX_ATTEMPTS : Nat := 3

/-- The ids of `PASSWORD_IMAGES` in PicturePasswordAuth.jsx. -/
def PASSWORD_IMAGE_IDS : List Nat := [1, 2, 3, 4, 5, 6, 7, 8, 9, 10, 11, 12]

/-- The single row of the `universal_lockout` table. `failed_attempts` is a
nullable INTEGER column (the SQL reads it through COALESCE and the JS through
`|| 0`), `lockout_until` and `last_attempt_at` are nullable timestamps. -/
structure LockoutRow where
  failed_attempts : Option Nat
  lockout_until : Option Time
  last_attempt_at : Option Time
  created_at : Time
  updated_at : Time
deriving Repr, DecidableEq

/-- A row of the `active_session` table. -/
structure Session where
  session_token : String
  expires_at : Time
  created_at : Time
deriving Repr, DecidableEq

/-- The authentication-relevant database: the singleton `app_password` row
(just its `password_sequence`, the only column any modeled operation reads),
the singleton `universal_lockout` row, and the `active_session` rows. `none`
models an absent singleton row. -/
structure AuthDB where
  password : Option (List Nat)
  lockout : Option LockoutRow
  sessions : List Session
deriving Repr, DecidableEq

/-- `COALESCE(current_record.failed_attempts, 0)` applied to an optional row:
0 when the row is absent or the column is NULL. -/
def failedOf (db : Option LockoutRow) : Nat :=
  match db with
  | some r => r.failed_attempts.getD 0
  | none => 0

/-- The SQL lockout test `lockout_until IS NOT NULL AND lockout_until > NOW()`
(equivalently the JS `lockoutUntil && lockoutUntil > now`), guarded on the row
existing. -/
def activeLockout (db : Option LockoutRow) (now : Time) : Bool :=
  match db with
  | some r =>
    match r.lockout_until with
    | some u => decide (now < u)
    | none => false
  | none => false

/-- The row set returned by SQL `record_failed_attempt`. -/
structure RFAResult where
  failed_attempts : Option Nat
  is_locked : Bool
  lockout_until : Option Time
deriving Repr, DecidableEq

/-- The fall-through of SQL `record_failed_attempt` after the already-locked
check: compute `new_attempts`, `should_lock`, `lockout_time`, then INSERT the
row if absent or UPDATE it, and return the computed values. -/
def recordIncrement (db : Option LockoutRow) (now : Time) :
    Option LockoutRow × RFAResult :=
  let new_attempts := failedOf db + 1
  let should_lock := decide (MAX_ATTEMPTS ≤ new_attempts)
  let lockout_time := if should_lock then some (now + LOCKOUT_DURATION_MS) else none
  let db' :=
    match db with
    | none => some ⟨some new_attempts, lockout_time, some now, now, now⟩
    | some r =>
      some { r with
              failed_attempts := some new_attempts,
              lockout_until := lockout_time,
              last_attempt_at := some now,
              updated_at := now }
  (db', ⟨some new_attempts, should_lock, lockout_time⟩)

/-- SQL `record_failed_attempt` (supabase-setup.sql): read the singleton
`universal_lockout` row; if it is locked with a deadline still in the future,
return the current state without writing; otherwise increment the counter,
trip the lock at `MAX_ATTEMPTS`, and persist. -/
def record_failed_attempt (db : Option LockoutRow) (now : Time) :
    Option LockoutRow × RFAResult :=
  match db with
  | some current_record =>
    match current_record.lockout_until with
    | some u =>
      if now < u then
        (some current_record, ⟨current_record.failed_attempts, true, some u⟩)
      else
        recordIncrement (some current_record) now
    | none => recordIncrement (some current_record) now
  | none => recordIncrement none now

/-- `resetLockout` in useLockout.js: UPDATE the singleton row to
`failed_attempts = 0`, `lockout_until = null`, `updated_at = now`. When the
row is absent the UPDATE matches nothing. -/
def resetLockout (db : Option LockoutRow) (now : Time) : Option LockoutRow :=
  match db with
  | some r =>
    some { r with failed_attempts := some 0, lockout_until := none, updated_at := now }
  | none => none

/-- The component-local state useLockout.js maintains
(`isLocked`, `lockoutTimeLeft`, `failedAttempts`). -/
structure LockoutLocal where
  isLocked : Bool
  lockoutTimeLeft : Nat
  failedAttempts : Nat
deriving Repr, DecidableEq

/-- `CHECK_THROTTLE_MS` in useLockout.js. -/
def CHECK_THROTTLE_MS : Nat := 2000

/-- `checkLockoutStatus` in useLockout.js: unless throttled, read the
singleton row; with a deadline still in the future report locked with the
remaining time; with an elapsed deadline call `resetLockout` (which writes
the row and zeroes the local state); otherwise report unlocked. Returns the
resulting stored row and local state. -/
def checkLockoutStatus (force : Bool) (lastCheckTime now : Time)
    (db : Option LockoutRow) (loc : LockoutLocal) :
    Option LockoutRow × LockoutLocal :=
  if !force && decide (now - lastCheckTime < CHECK_THROTTLE_MS) then
    (db, loc)
  else
    match db with
    | some data =>
      match data.lockout_until with
      | some lockoutUntil =>
        if now < lockoutUntil then
          (some data, ⟨true, lockoutUntil - now, data.failed_attempts.getD 0⟩)
        else
          (resetLockout (some data) now, ⟨false, 0, 0⟩)
      | none => (some data, ⟨false, loc.lockoutTimeLeft, data.failed_attempts.getD 0⟩)
    | none => (db, ⟨false, loc.lockoutTimeLeft, 0⟩)

/-- SQL `cleanup_expired_sessions`: DELETE FROM active_session WHERE
expires_at < NOW(). -/
def cleanup_expired_sessions (sessions : List Session) (now : Time) : List Session :=
  sessions.filter (fun s => !decide (s.expires_at < now))

/-- The result of `createSession` in useAuth.js. -/
structure SessionResult where
  success : Bool
  token : Option String
deriving Repr, DecidableEq

/-- `createSession` in useAuth.js: insert a row with the freshly generated
token (here a parameter) and `expires_at = now + SESSION_DURATION_MS`, then
call the `cleanup_expired_sessions` RPC. The UNIQUE constraint on
`session_token` makes the insert fail when the token already exists. -/
def createSession (sessions : List Session) (token : String) (now : Time) :
    List Session × SessionResult :=
  if sessions.any (fun s => s.session_token == token) then
    (sessions, ⟨false, none⟩)
  else
    (cleanup_expired_sessions (sessions ++ [⟨token, now + SESSION_DURATION_MS, now⟩]) now,
     ⟨true, some token⟩)

/-- `invalidateSession` in useAuth.js: DELETE FROM active_session WHERE
session_token = token. -/
def invalidateSession (sessions : List Session) (token : String) : List Session :=
  sessions.filter (fun s => !(s.session_token == token))

/-- `checkAuthStatus` in useAuth.js: look the token up; absent means not
authenticated; present with `expires_at > now` means authenticated with no
write; present but expired means `invalidateSession` is called (deleting the
row) and not authenticated. Returns the resulting session table and the
boolean the hook returns. -/
def checkAuthStatus (sessions : List Session) (token : String) (now : Time) :
    List Session × Bool :=
  match sessions.find? (fun s => s.session_token == token) with
  | none => (sessions, false)
  | some s =>
    if now < s.expires_at then (sessions, true)
    else (invalidateSession sessions token, false)

/-- SQL `is_valid_session_token`: a row with this token and
`expires_at > NOW()` exists. -/
def is_valid_session_token (sessions : List Session) (token : String) (now : Time) : Bool :=
  sessions.any (fun s => s.session_token == token && decide (now < s.expires_at))

/-- The row set returned by SQL `validate_password_with_lockout`. -/
structure VPWLResult where
  is_valid : Bool
  is_locked : Bool
  error_message : Option String
deriving Repr, DecidableEq

/-- The password half of SQL `validate_password_with_lockout`, reached when
the lockout check falls through: absent row or empty `password_sequence`
(whose `array_length` is NULL) reports the password unset; otherwise the
stored array is compared with the submitted one for exact equality. No
statement in the function writes, so the database passes through unchanged. -/
def vpwlPassword (db : AuthDB) (sequence : List Nat) : AuthDB × VPWLResult :=
  match db.password with
  | none => (db, ⟨false, false, some "Password not set"⟩)
  | some p =>
    if p.length = 0 then (db, ⟨false, false, some "Password not set"⟩)
    else if p = sequence then (db, ⟨true, false, none⟩)
    else (db, ⟨false, false, some "Invalid password"⟩)

/-- SQL `validate_password_with_lockout`: first the lockout check — with a
deadline still in the future the function returns locked without touching the
`app_password` table — then the password comparison via `vpwlPassword`. -/
def validate_password_with_lockout (db : AuthDB) (sequence : List Nat) (now : Time) :
    AuthDB × VPWLResult :=
  match db.lockout with
  | some lr =>
    match lr.lockout_until with
    | some u =>
      if now < u then (db, ⟨false, true, some "Account is locked. Please wait."⟩)
      else vpwlPassword db sequence
    | none => vpwlPassword db sequence
  | none => vpwlPassword db sequence

/-- `savePassword` in usePassword.js: upsert the singleton `app_password`
row with the submitted sequence. The function performs no validation of the
sequence. -/
def savePassword (db : AuthDB) (sequence : List Nat) : AuthDB × Bool :=
  ({ db with password := some sequence }, true)

/-- What the login branch of `handleImageClick` reports back to the user:
whether access was granted (and with which token), and otherwise the lockout
flag and attempt count taken from the `record_failed_attempt` response. -/
structure LoginResult where
  success : Bool
  token : Option String
  isLocked : Bool
  failedAttempts : Nat
deriving Repr, DecidableEq

/-- The login branch of `handleImageClick` in PicturePasswordAuth.jsx, as it
acts on the database: `validatePassword` delegates to the
`validate_password_with_lockout` RPC; on a valid result the client calls
`resetLockout` and then `createSession`; on any invalid result (wrong
password or locked) it calls the `record_failed_attempt` RPC and reports the
returned count and lock flag (read through `|| 0` and `|| false`). The
client's follow-up `checkLockoutStatus` refresh after a lock report is
read-only at the same instant and is modeled separately. -/
def attempt_login (db : AuthDB) (sequence : List Nat) (now : Time) (token : String) :
    AuthDB × LoginResult :=
  let res := validate_password_with_lockout db sequence now
  let db1 := res.1
  if res.2.is_valid then
    let lock2 := resetLockout db1.lockout now
    let sres := createSession db1.sessions token now
    ({ db1 with lockout := lock2, sessions := sres.1 },
     ⟨sres.2.success, sres.2.token, false, 0⟩)
  else
    let rec2 := record_failed_attempt db1.lockout now
    ({ db1 with lockout := rec2.1 },
     ⟨false, none, rec2.2.is_locked, rec2.2.failed_attempts.getD 0⟩)

/-- The setup branch of `handleImageClick` in PicturePasswordAuth.jsx
composed with `savePassword`: a click on an already-selected image is
rejected (`newPassword.includes(imageId)`), so the accepted sequence is
duplicate-free, and the confirm step is only reachable once at least 3 images
are selected (the Continue button renders when `newPassword.length >= 3`).
No branch bounds the length from above. On acceptance the flow runs
`savePassword`, then `resetLockout`, then `createSession`. -/
def set_credential (db : AuthDB) (sequence : List Nat) (now : Time) (token : String) :
    AuthDB × SessionResult :=
  if List.Nodup sequence ∧ 3 ≤ sequence.length then
    let db1 := (savePassword db sequence).1
    let lock2 := resetLockout db1.lockout now
    let sres := createSession db1.sessions token now
    ({ db1 with lockout := lock2, sessions := sres.1 }, sres.2)
  else (db, ⟨false, none⟩)

/-- A stored lockout state that carries no failures and no deadline: either
no row, or a row with `failed_attempts = 0` and `lockout_until` NULL. -/
def lockoutCleared (db : Option LockoutRow) : Bool :=
  match db with
  | none => true
  | some r => r.failed_attempts == some 0 && r.lockout_until == none

/-- The written row of the shared increment path of `record_failed_attempt`:
counter bumped by one, lock tripped exactly at the threshold, attempt time
stamped. -/
lemma recordIncrement_state (db : Option LockoutRow) (now : Time) :
    ∃ r', (recordIncrement db now).1 = some r' ∧
      r'.failed_attempts = some (failedOf db + 1) ∧
      r'.lockout_until =
        (if MAX_ATTEMPTS ≤ failedOf db + 1 then some (now + LOCKOUT_DURATION_MS) else none) ∧
      r'.last_attempt_at = some now := by
  cases db with
  | none => refine ⟨_, rfl, rfl, ?_, rfl⟩; simp [recordIncrement]
  | some r => refine ⟨_, rfl, rfl, ?_, rfl⟩; simp [recordIncrement]

/-- With no still-running deadline, `record_failed_attempt` takes the
increment path. -/
lemma record_failed_attempt_of_not_active (db : Option LockoutRow) (now : Time)
    (h : activeLockout db now = false) :
    record_failed_attempt db now = recordIncrement db now := by
  match db with
  | none => rfl
  | some r =>
    match hu : r.lockout_until with
    | none => simp [record_failed_attempt, hu]
    | some u =>
      simp [activeLockout, hu] at h
      simp [record_failed_attempt, hu, Nat.not_lt.mpr h]

/-- Claim C1: `record_failed_attempt` leaves a state with a future deadline
untouched, and in every other state increments the counter by one, trips the
lock (deadline `now` + 1 hour) exactly when the new count reaches
`MAX_ATTEMPTS`, and stamps `last_attempt_at = now`. -/
theorem record_failed_attempt_spec (db : Option LockoutRow) (now : Time) :
    (activeLockout db now = true → (record_failed_attempt db now).1 = db) ∧
    (activeLockout db now = false →
      ∃ r', (record_failed_attempt db now).1 = some r' ∧
        r'.failed_attempts = some (failedOf db + 1) ∧
        r'.lockout_until =
          (if MAX_ATTEMPTS ≤ failedOf db + 1 then some (now + LOCKOUT_DURATION_MS) else none) ∧
        r'.last_attempt_at = some now) := by
  constructor
  · intro h
    match db with
    | none => simp [activeLockout] at h
    | some r =>
      match hu : r.lockout_until with
      | none => simp [activeLockout, hu] at h
      | some u =>
        simp [activeLockout, hu] at h
        simp [record_failed_attempt, hu, h]
  · intro h
    rw [record_failed_attempt_of_not_active db now h]
    exact recordIncrement_state db now

/-- Claim C1 witness: one locked state is returned unchanged and one open
state is incremented, both at concrete inputs. -/
theorem record_failed_attempt_spec_witness :
    ((record_failed_attempt (some ⟨some 3, some 100, some 0, 0, 0⟩) 50).1 =
      some ⟨some 3, some 100, some 0, 0, 0⟩) ∧
    (∃ r', (record_failed_attempt (some ⟨some 1, none, some 0, 0, 0⟩) 50).1 = some r' ∧
      r'.failed_attempts = some (failedOf (some ⟨some 1, none, some 0, 0, 0⟩) + 1) ∧
      r'.lockout_until =
        (if MAX_ATTEMPTS ≤ failedOf (some ⟨some 1, none, some 0, 0, 0⟩) + 1 then
          some (50 + LOCKOUT_DURATION_MS) else none) ∧
      r'.last_attempt_at = some 50) := by
  exact ⟨(record_failed_attempt_spec (some ⟨some 3, some 100, some 0, 0, 0⟩) 50).1 (by decide),
         (record_failed_attempt_spec (some ⟨some 1, none, some 0, 0, 0⟩) 50).2 (by decide)⟩

/-- Claim C2: with a lockout deadline in the future, `attempt_login` leaves
the whole database (credential, lockout, sessions) unchanged and reports
locked with no token and the unincremented counter — for every submitted
sequence and every stored credential, in particular when the two are
equal. -/
theorem attempt_login_locked_frame (db : AuthDB) (sequence : List Nat) (now : Time)
    (token : String) (r : LockoutRow) (u : Time)
    (hdb : db.lockout = some r) (hu : r.lockout_until = some u) (hnow : now < u) :
    attempt_login db sequence now token =
      (db, ⟨false, none, true, r.failed_attempts.getD 0⟩) := by
  obtain ⟨p, l, s⟩ := db
  simp only [AuthDB.lockout] at hdb
  subst hdb
  simp [attempt_login, validate_password_with_lockout, hu, hnow,
    record_failed_attempt]

/-- Claim C2 witness: a locked state at a concrete instant, with the
submitted sequence equal to the stored credential, is left unchanged and
reported locked. -/
theorem attempt_login_locked_frame_witness :
    attempt_login
        ⟨some [1, 2, 3], some ⟨some 3, some 100, some 10, 0, 10⟩, []⟩
        [1, 2, 3] 50 "tok" =
      (⟨some [1, 2, 3], some ⟨some 3, some 100, some 10, 0, 10⟩, []⟩,
       ⟨false, none, true, (some 3 : Option Nat).getD 0⟩) := by
  exact attempt_login_locked_frame
    ⟨some [1, 2, 3], some ⟨some 3, some 100, some 10, 0, 10⟩, []⟩
    [1, 2, 3] 50 "tok" ⟨some 3, some 100, some 10, 0, 10⟩ 100 rfl rfl (by decide)

/-- Claim C3: an unthrottled `checkLockoutStatus` that observes an elapsed
deadline first writes the reset (`failed_attempts = 0`, `lockout_until`
NULL) to the stored row and reports unlocked, so the stored row retains no
expired deadline once observed. -/
theorem checkLockoutStatus_expired_reset (force : Bool) (lastCheckTime now : Time)
    (db : Option LockoutRow) (loc : LockoutLocal) (r : LockoutRow) (u : Time)
    (hth : force = true ∨ CHECK_THROTTLE_MS ≤ now - lastCheckTime)
    (hdb : db = some r) (hu : r.lockout_until = some u) (hpast : u ≤ now) :
    checkLockoutStatus force lastCheckTime now db loc =
      (some { r with failed_attempts := some 0, lockout_until := none, updated_at := now },
       ⟨false, 0, 0⟩) := by
  have hguard : (!force && decide (now - lastCheckTime < CHECK_THROTTLE_MS)) = false := by
    rcases hth with h | h
    · simp [h]
    · simp [Nat.not_lt.mpr h]
  simp [checkLockoutStatus, hguard, hdb, hu, Nat.not_lt.mpr hpast, resetLockout]

/-- Claim C3 witness: at a concrete expired deadline the stored row is reset
and the call reports unlocked. -/
theorem checkLockoutStatus_expired_reset_witness :
    checkLockoutStatus true 0 500 (some ⟨some 3, some 100, some 10, 0, 10⟩)
        ⟨true, 7, 3⟩ =
      (some { (⟨some 3, some 100, some 10, 0, 10⟩ : LockoutRow) with
                failed_attempts := some 0, lockout_until := none, updated_at := 500 },
       ⟨false, 0, 0⟩) := by
  exact checkLockoutStatus_expired_reset true 0 500
    (some ⟨some 3, some 100, some 10, 0, 10⟩) ⟨true, 7, 3⟩
    ⟨some 3, some 100, some 10, 0, 10⟩ 100 (Or.inl rfl) rfl rfl (by decide)

/-- Claim C9: after an un-observed expiry (deadline in the past) with at
least two recorded failures, one `record_failed_attempt` call yields a count
of at least `MAX_ATTEMPTS` and immediately installs a fresh deadline one
hour from now. -/
theorem record_failed_attempt_retrips (db : Option LockoutRow) (now : Time)
    (r : LockoutRow) (u : Time) (n : Nat)
    (hdb : db = some r) (hu : r.lockout_until = some u) (hpast : u ≤ now)
    (hn : r.failed_attempts = some n) (h2 : 2 ≤ n) :
    ∃ r', (record_failed_attempt db now).1 = some r' ∧
      r'.failed_attempts = some (n + 1) ∧ MAX_ATTEMPTS ≤ n + 1 ∧
      r'.lockout_until = some (now + LOCKOUT_DURATION_MS) ∧
      (record_failed_attempt db now).2.is_locked = true := by
  subst hdb
  have hact : activeLockout (some r) now = false := by
    simp [activeLockout, hu, Nat.not_lt.mpr hpast]
  rw [record_failed_attempt_of_not_active (some r) now hact]
  have h3 : MAX_ATTEMPTS ≤ failedOf (some r) + 1 := by
    simp [failedOf, hn, MAX_ATTEMPTS]
    omega
  refine ⟨_, rfl, ?_, ?_, ?_, ?_⟩
  · simp [failedOf, hn]
  · simpa [MAX_ATTEMPTS, failedOf, hn] using h3
  · simp [recordIncrement, h3]
  · simp [recordIncrement, h3]

/-- Claim C9 witness: a concrete state with two failures and an expired
deadline is re-tripped by a single call. -/
theorem record_failed_attempt_retrips_witness :
    ∃ r', (record_failed_attempt (some ⟨some 2, some 100, some 10, 0, 10⟩) 500).1 = some r' ∧
      r'.failed_attempts = some (2 + 1) ∧ MAX_ATTEMPTS ≤ 2 + 1 ∧
      r'.lockout_until = some (500 + LOCKOUT_DURATION_MS) ∧
      (record_failed_attempt (some ⟨some 2, some 100, some 10, 0, 10⟩) 500).2.is_locked = true := by
  exact record_failed_attempt_retrips (some ⟨some 2, some 100, some 10, 0, 10⟩) 500
    ⟨some 2, some 100, some 10, 0, 10⟩ 100 2 rfl rfl (by decide) rfl (by decide)

/-- The password half of the validation RPC never writes. -/
lemma vpwlPassword_fst (db : AuthDB) (s : List Nat) : (vpwlPassword db s).1 = db := by
  unfold vpwlPassword
  cases hp : db.password with
  | none => rfl
  | some p =>
    dsimp only
    split
    · rfl
    · split <;> rfl

/-- The validation RPC never writes. -/
lemma validate_password_with_lockout_fst (db : AuthDB) (s : List Nat) (now : Time) :
    (validate_password_with_lockout db s now).1 = db := by
  rcases hl : db.lockout with _ | lr
  · simp only [validate_password_with_lockout, hl]
    exact vpwlPassword_fst db s
  · rcases hu : lr.lockout_until with _ | u
    · simp only [validate_password_with_lockout, hl, hu]
      exact vpwlPassword_fst db s
    · by_cases h : now < u
      · simp [validate_password_with_lockout, hl, hu, h]
      · simp only [validate_password_with_lockout, hl, hu, if_neg h]
        exact vpwlPassword_fst db s

/-- When the lock is not active, the stored credential is present and equal
to the submitted sequence, and the stored sequence is nonempty, the
validation RPC reports valid. -/
lemma vpwl_valid (db : AuthDB) (S : List Nat) (now : Time)
    (hp : db.password = some S) (hne : S ≠ [])
    (hnl : activeLockout db.lockout now = false) :
    validate_password_with_lockout db S now = (db, ⟨true, false, none⟩) := by
  have hlen : ¬ S.length = 0 := by
    simpa [List.length_eq_zero] using hne
  have hpw : vpwlPassword db S = (db, ⟨true, false, none⟩) := by
    simp [vpwlPassword, hp, hlen]
  rcases hl : db.lockout with _ | lr
  · simp only [validate_password_with_lockout, hl]
    exact hpw
  · rcases hu : lr.lockout_until with _ | u
    · simp only [validate_password_with_lockout, hl, hu]
      exact hpw
    · rw [hl] at hnl
      have hnotlt : ¬ now < u := by
        simp [activeLockout, hu] at hnl
        exact Nat.not_lt.mpr hnl
      simp only [validate_password_with_lockout, hl, hu, if_neg hnotlt]
      exact hpw

/-- A row `resetLockout` has written carries no active deadline. -/
lemma activeLockout_resetLockout (db : Option LockoutRow) (t now : Time) :
    activeLockout (resetLockout db t) now = false := by
  cases db <;> simp [resetLockout, activeLockout]

/-- A row `resetLockout` has written is cleared. -/
lemma lockoutCleared_resetLockout (db : Option LockoutRow) (t : Time) :
    lockoutCleared (resetLockout db t) = true := by
  cases db <;> simp [resetLockout, lockoutCleared]

/-- Claim C8: a successful `attempt_login` (stored credential present, equal
to the submitted sequence, lock not active) leaves the stored lockout state
cleared — `failed_attempts = 0`, `lockout_until` NULL — whatever the prior
failure count was, and the `resetLockout` transition it uses is idempotent. -/
theorem attempt_login_success_resets (db : AuthDB) (S : List Nat) (now : Time)
    (token : String)
    (hp : db.password = some S) (hne : S ≠ [])
    (hnl : activeLockout db.lockout now = false) :
    lockoutCleared ((attempt_login db S now token).1.lockout) = true ∧
    resetLockout (resetLockout db.lockout now) now = resetLockout db.lockout now := by
  have hv := vpwl_valid db S now hp hne hnl
  constructor
  · simp only [attempt_login, hv]
    exact lockoutCleared_resetLockout db.lockout now
  · cases db.lockout <;> simp [resetLockout]

/-- Claim C8 witness: a concrete state with one prior failure is cleared by
a successful login, and the reset is idempotent there. -/
theorem attempt_login_success_resets_witness :
    lockoutCleared ((attempt_login
        ⟨some [1, 2, 3], some ⟨some 1, none, some 10, 0, 10⟩, []⟩
        [1, 2, 3] 50 "tok").1.lockout) = true ∧
    resetLockout (resetLockout (some ⟨some 1, none, some 10, 0, 10⟩) 50) 50 =
      resetLockout (some ⟨some 1, none, some 10, 0, 10⟩) 50 := by
  exact attempt_login_success_resets
    ⟨some [1, 2, 3], some ⟨some 1, none, some 10, 0, 10⟩, []⟩
    [1, 2, 3] 50 "tok" rfl (by decide) (by decide)

/-- Claim C10: the validation RPC is read-only — it returns the database
unchanged in every state and for every submitted sequence — and when it
reports invalid, the only state change of the whole login flow is the
subsequent `record_failed_attempt` call applied to the untouched state. -/
theorem validate_password_with_lockout_readonly (db : AuthDB) (sequence : List Nat)
    (now : Time) :
    (validate_password_with_lockout db sequence now).1 = db ∧
    (∀ token, (validate_password_with_lockout db sequence now).2.is_valid = false →
      (attempt_login db sequence now token).1 =
        { db with lockout := (record_failed_attempt db.lockout now).1 }) := by
  refine ⟨validate_password_with_lockout_fst db sequence now, ?_⟩
  intro token hval
  simp [attempt_login, hval, validate_password_with_lockout_fst]

/-- Claim C10 witness: at a concrete state and a mismatched sequence, the
RPC leaves the database unchanged and the login flow's state change is
exactly the failure-recording call. -/
theorem validate_password_with_lockout_readonly_witness :
    (validate_password_with_lockout
        ⟨some [1, 2, 3], some ⟨some 1, none, some 10, 0, 10⟩, []⟩ [3, 2, 1] 50).1 =
      ⟨some [1, 2, 3], some ⟨some 1, none, some 10, 0, 10⟩, []⟩ ∧
    (attempt_login ⟨some [1, 2, 3], some ⟨some 1, none, some 10, 0, 10⟩, []⟩
        [3, 2, 1] 50 "tok").1 =
      { (⟨some [1, 2, 3], some ⟨some 1, none, some 10, 0, 10⟩, []⟩ : AuthDB) with
          lockout := (record_failed_attempt (some ⟨some 1, none, some 10, 0, 10⟩) 50).1 } := by
  have h := validate_password_with_lockout_readonly
    ⟨some [1, 2, 3], some ⟨some 1, none, some 10, 0, 10⟩, []⟩ [3, 2, 1] 50
  exact ⟨h.1, h.2 "tok" (by decide)⟩

/-- Claim C7: `checkAuthStatus` on a stored but expired token reports not
authenticated, deletes that session row as a side effect, and a second
submission of the same token is rejected against the resulting table. -/
theorem checkAuthStatus_expired_rejects (sessions : List Session) (token : String)
    (now : Time) (s : Session)
    (hfind : sessions.find? (fun x => x.session_token == token) = some s)
    (hexp : s.expires_at ≤ now) :
    checkAuthStatus sessions token now = (invalidateSession sessions token, false) ∧
    (invalidateSession sessions token).find? (fun x => x.session_token == token) = none ∧
    checkAuthStatus (invalidateSession sessions token) token now =
      (invalidateSession sessions token, false) := by
  have h2 : (invalidateSession sessions token).find?
      (fun x => x.session_token == token) = none := by
    apply List.find?_eq_none.mpr
    intro x hx
    have hmem := (List.mem_filter.mp hx).2
    simp only [Bool.not_eq_true'] at hmem
    simp [hmem]
  refine ⟨?_, h2, ?_⟩
  · simp [checkAuthStatus, hfind, Nat.not_lt.mpr hexp]
  · simp [checkAuthStatus, h2]

/-- Claim C7 witness: a concrete expired session is rejected, deleted, and
still rejected on resubmission. -/
theorem checkAuthStatus_expired_rejects_witness :
    checkAuthStatus [⟨"t", 100, 0⟩] "t" 200 = (invalidateSession [⟨"t", 100, 0⟩] "t", false) ∧
    (invalidateSession [⟨"t", 100, 0⟩] "t").find?
      (fun x => x.session_token == "t") = none ∧
    checkAuthStatus (invalidateSession [⟨"t", 100, 0⟩] "t") "t" 200 =
      (invalidateSession [⟨"t", 100, 0⟩] "t", false) := by
  exact checkAuthStatus_expired_rejects [⟨"t", 100, 0⟩] "t" 200 ⟨"t", 100, 0⟩
    (by decide) (by decide)

/-- Claim C6: for a 3–5 long duplicate-free sequence over the image
alphabet, `set_credential` followed by `attempt_login` with the same
sequence succeeds (exact order-sensitive equality), returns the freshly
minted token, and leaves a session that `is_valid_session_token` accepts. -/
theorem set_then_login_roundtrip (db : AuthDB) (S : List Nat) (now : Time)
    (tok1 tok2 : String)
    (hlen1 : 3 ≤ S.length) (hlen2 : S.length ≤ 5) (hnodup : S.Nodup)
    (halpha : ∀ x ∈ S, x ∈ PASSWORD_IMAGE_IDS)
    (hfresh : ((set_credential db S now tok1).1.sessions.any
        (fun s => s.session_token == tok2)) = false) :
    ((attempt_login (set_credential db S now tok1).1 S now tok2).2.success = true) ∧
    ((attempt_login (set_credential db S now tok1).1 S now tok2).2.token = some tok2) ∧
    (is_valid_session_token
        (attempt_login (set_credential db S now tok1).1 S now tok2).1.sessions
        tok2 now = true) := by
  have hset : (set_credential db S now tok1).1 =
      { password := some S, lockout := resetLockout db.lockout now,
        sessions := (createSession db.sessions tok1 now).1 } := by
    simp [set_credential, hnodup, hlen1, savePassword]
  obtain ⟨l1, hl1⟩ : ∃ l1, (createSession db.sessions tok1 now).1 = l1 := ⟨_, rfl⟩
  obtain ⟨lk, hlk⟩ : ∃ lk, resetLockout db.lockout now = lk := ⟨_, rfl⟩
  rw [hl1, hlk] at hset
  rw [hset] at hfresh ⊢
  have hfresh' : l1.any (fun s => s.session_token == tok2) = false := hfresh
  have hne : S ≠ [] := by
    intro h
    rw [h] at hlen1
    simp at hlen1
  have hact : activeLockout lk now = false := by
    rw [← hlk]
    exact activeLockout_resetLockout db.lockout now now
  have hv := vpwl_valid ⟨some S, lk, l1⟩ S now rfl hne hact
  have hlogin : attempt_login ⟨some S, lk, l1⟩ S now tok2 =
      (⟨some S, resetLockout lk now,
        cleanup_expired_sessions (l1 ++ [⟨tok2, now + SESSION_DURATION_MS, now⟩]) now⟩,
       ⟨true, some tok2, false, 0⟩) := by
    simp [attempt_login, hv, createSession, hfresh']
  rw [hlogin]
  refine ⟨rfl, rfl, ?_⟩
  apply List.any_eq_true.mpr
  refine ⟨⟨tok2, now + SESSION_DURATION_MS, now⟩, ?_, ?_⟩
  · apply List.mem_filter.mpr
    refine ⟨List.mem_append_right _ (List.mem_singleton_self _), ?_⟩
    simp [SESSION_DURATION_MS]
  · simp [SESSION_DURATION_MS]

/-- Claim C6 witness: from the empty database, setting the credential
[1, 2, 3] and logging in with it at a concrete instant yields an accepted
session token. -/
theorem set_then_login_roundtrip_witness :
    ((attempt_login (set_credential ⟨none, none, []⟩ [1, 2, 3] 0 "a").1
        [1, 2, 3] 0 "b").2.success = true) ∧
    ((attempt_login (set_credential ⟨none, none, []⟩ [1, 2, 3] 0 "a").1
        [1, 2, 3] 0 "b").2.token = some "b") ∧
    (is_valid_session_token
        (attempt_login (set_credential ⟨none, none, []⟩ [1, 2, 3] 0 "a").1
          [1, 2, 3] 0 "b").1.sessions "b" 0 = true) := by
  exact set_then_login_roundtrip ⟨none, none, []⟩ [1, 2, 3] 0 "a" "b"
    (by decide) (by decide) (by decide) (by decide) (by decide)

/-- Claim C4 (code-bug evidence): the setup flow accepts and stores a
six-image sequence. Every image is distinct and drawn from the alphabet, the
length is outside the documented 3–5 bound, yet `set_credential` stores the
sequence and reports success: neither the setup branch of `handleImageClick`
nor `savePassword` bounds the length from above. -/
theorem set_credential_accepts_length_six :
    ((set_credential ⟨none, none, []⟩ [1, 2, 3, 4, 5, 6] 0 "t").1.password =
      some [1, 2, 3, 4, 5, 6]) ∧
    ((set_credential ⟨none, none, []⟩ [1, 2, 3, 4, 5, 6] 0 "t").2.success = true) ∧
    ([1, 2, 3, 4, 5, 6] : List Nat).length = 6 ∧
    List.Nodup [1, 2, 3, 4, 5, 6] ∧
    (∀ x ∈ ([1, 2, 3, 4, 5, 6] : List Nat), x ∈ PASSWORD_IMAGE_IDS) := by
  decide

end QuickNotes
